import Mathlib

/-!
Shallow embedding of the tennis player-analysis page
(`src/app/tennis/player-analysis/page.tsx`) of the AEye-Sports repository,
together with the tennis results page bundled in the same source file.

The page orchestrates an external tracker module (`initializeTennisTracker`,
`trackFrame`, `generateAnalysisResult` from `@/lib/tennis-tracker`) that is
not part of the repository, so those operations, together with the browser
facilities used by the page (video-element loading, canvas frame extraction,
`uuidv4`, `encodeURIComponent`, `JSON.stringify`, `localStorage`, `fetch`),
enter the model as an environment of oracles.  The effectful calls performed
by the page (`setError`, `setIsAnalyzing`, `setProgress`,
`setProcessingMessage`, `setAnalysisId`, `localStorage.setItem`,
`router.push`, `console.error`, and the calls into the tracker module) are
recorded as an event trace, in program order.  JavaScript numbers are
modelled as rationals.
-/

namespace AEyeSports

attribute [local semireducible] Rat.mul Rat.inv Rat.add Rat.sub

/-- A bounding box drawn by the user (type `BoundingBox` of the external
`tennis-tracker` module; the page itself only inspects the `label` field). -/
structure BoundingBox where
  label : String
  x : ℚ
  y : ℚ
  width : ℚ
  height : ℚ
deriving DecidableEq

/-- A per-frame tracking result produced by the external tracker.  Its
contents are opaque to the page, which only threads the previous frame into
`trackFrame` and collects the results, so it is modelled as an abstract tag. -/
structure FrameData where
  tag : ℕ
deriving DecidableEq

/-- The `videoMetadata` page state: `{width, height, duration}`. -/
structure VideoMetadata where
  width : ℚ
  height : ℚ
  duration : ℚ
deriving DecidableEq

/-- The metadata object literal passed to `generateAnalysisResult`:
`{ duration, width, height, fps }`. -/
structure AnalysisVideoMeta where
  duration : ℚ
  width : ℚ
  height : ℚ
  fps : ℚ
deriving DecidableEq

/-- The analysis result produced by the external `generateAnalysisResult`;
opaque to the page, modelled as an abstract tag. -/
structure TennisAnalysisResult where
  tag : ℕ
deriving DecidableEq

/-- Result of `initializeTennisTracker`: the initial frame and the
pixels-to-meters conversion factor. -/
structure TrackerInit where
  initialFrame : FrameData
  pixelsToMeters : ℚ
deriving DecidableEq

/-- One observable effect performed by `startTennisAnalysis`, in program
order: React state setters, calls into the external tracker module,
`localStorage.setItem`, `router.push`, and `console.error`.
`frameError t` records the `console.error` of the per-frame `catch` block
at timestamp `t`. -/
inductive Event where
  | setError (msg : Option String)
  | setIsAnalyzing (b : Bool)
  | setProgress (p : ℚ)
  | setMessage (m : String)
  | setAnalysisId (id : String)
  | initCall (boxes : List BoundingBox) (width height : ℚ)
  | trackCall (frameBase64 : String) (frameIndex : ℕ) (timestamp : ℚ)
      (prevFrame : FrameData) (pixelsToMeters : ℚ)
  | frameError (timestamp : ℚ)
  | generateCall (frames : List FrameData) (meta : AnalysisVideoMeta)
      (pixelsToMeters : ℚ)
  | storageWrite (key value : String)
  | navigate (url : String)
  | consoleError (msg : String)
deriving DecidableEq

/-- The oracle environment for one run of `startTennisAnalysis`: the fresh
UUID, the outcome of `initializeTennisTracker`, whether the created video
element loads (`onloadedmetadata` vs `onerror`), its `duration`, the outcome
of seeking/canvas extraction per frame index (`none` models an exception
thrown before `trackFrame` is reached), the outcome of `trackFrame` (`none`
models a rejection), the outcome of `generateAnalysisResult`,
`JSON.stringify` on analysis results, and `encodeURIComponent`. -/
structure TennisEnv where
  freshUuid : String
  trackerInit : Except String TrackerInit
  videoLoads : Bool
  duration : ℚ
  extract : ℕ → Option String
  track : String → ℕ → ℚ → FrameData → ℚ → Option FrameData
  generate : List FrameData → AnalysisVideoMeta → ℚ →
      Except String TennisAnalysisResult
  stringify : TennisAnalysisResult → String
  encode : String → String

/-- `const frameRate = 2` — the sampling rate of the frame loop. -/
def frameRate : ℚ := 2

/-- `const totalFrames = Math.floor(duration * frameRate)` (as a natural
number; the loop body never runs when the floor is nonpositive). -/
def totalFramesOf (duration : ℚ) : ℕ := (duration * frameRate).floor.toNat

/-- `const timestamp = frameIndex / frameRate`. -/
def timestampAt (frameIndex : ℕ) : ℚ := (frameIndex : ℚ) / frameRate

/-- `setProgress((frameIndex / totalFrames) * 100)`. -/
def progressAt (frameIndex totalFrames : ℕ) : ℚ :=
  ((frameIndex : ℚ) / (totalFrames : ℚ)) * 100

/-- The processing message chosen at a loop iteration:
`frameIndex < totalFrames * 0.3`, `frameIndex < totalFrames * 0.6`, else. -/
def processingMessageAt (frameIndex totalFrames : ℕ) : String :=
  if (frameIndex : ℚ) < (totalFrames : ℚ) * (3 / 10) then
    "Extracting video frames..."
  else if (frameIndex : ℚ) < (totalFrames : ℚ) * (6 / 10) then
    "Tracking player and ball..."
  else
    "Analyzing player performance..."

/-- JavaScript `m || fallback` on an error message string. -/
def messageOr (m fallback : String) : String := if m = "" then fallback else m

/-- `frames[frames.length - 1]` — the most recently collected frame (the
frames list is never empty when this is read; the default is irrelevant). -/
def lastFrame (frames : List FrameData) : FrameData := frames.getLastD ⟨0⟩

/-- The body of one iteration of the frame loop after the progress message
update: seek + canvas extraction, the `trackFrame` call, appending the new
frame and updating progress on success; on an exception the `catch` block
logs and the frames list is left unchanged. -/
def frameStep (env : TennisEnv) (pixelsToMeters : ℚ) (totalFrames : ℕ)
    (frameIndex : ℕ) (frames : List FrameData) :
    List Event × List FrameData :=
  match env.extract frameIndex with
  | none => ([Event.frameError (timestampAt frameIndex)], frames)
  | some frameBase64 =>
    match env.track frameBase64 frameIndex (timestampAt frameIndex)
        (lastFrame frames) pixelsToMeters with
    | none =>
        ([Event.trackCall frameBase64 frameIndex (timestampAt frameIndex)
            (lastFrame frames) pixelsToMeters,
          Event.frameError (timestampAt frameIndex)], frames)
    | some frame =>
        ([Event.trackCall frameBase64 frameIndex (timestampAt frameIndex)
            (lastFrame frames) pixelsToMeters,
          Event.setProgress (progressAt frameIndex totalFrames)],
         frames ++ [frame])

/-- Fuelled form of the loop
`for (let frameIndex = 1; frameIndex < totalFrames; frameIndex++)`: the fuel
only bounds the number of iterations, the loop guard is `frameIndex <
totalFrames` as in the source.  Each iteration first sets the processing
message and then runs `frameStep`. -/
def frameLoopAux (env : TennisEnv) (pixelsToMeters : ℚ) (totalFrames : ℕ) :
    ℕ → ℕ → List FrameData → List Event × List FrameData
  | 0, _, frames => ([], frames)
  | fuel + 1, frameIndex, frames =>
    if frameIndex < totalFrames then
      let step := frameStep env pixelsToMeters totalFrames frameIndex frames
      let rest := frameLoopAux env pixelsToMeters totalFrames fuel
        (frameIndex + 1) step.2
      (Event.setMessage (processingMessageAt frameIndex totalFrames) ::
        step.1 ++ rest.1, rest.2)
    else ([], frames)

/-- The frame loop started at `frameIndex`, with exactly enough fuel for the
remaining iterations. -/
def frameLoop (env : TennisEnv) (pixelsToMeters : ℚ)
    (totalFrames frameIndex : ℕ) (frames : List FrameData) :
    List Event × List FrameData :=
  frameLoopAux env pixelsToMeters totalFrames (totalFrames - frameIndex)
    frameIndex frames

/-- The trace of `startTennisAnalysis(boxes)` run with page state `videoUrl`,
`videoMetadata` and environment `env`.  Mirrors the source: the guard on
`videoUrl`/`videoMetadata`, the initial state setters, the fresh analysis id,
the `try` block (tracker init, video load, frame loop, result generation,
storage write, navigation) and the outer `catch` block. -/
def startTennisAnalysis (videoUrl : Option String)
    (videoMetadata : Option VideoMetadata) (boxes : List BoundingBox)
    (env : TennisEnv) : List Event :=
  match videoUrl, videoMetadata with
  | some url, some meta =>
    let newAnalysisId := "tennis-" ++ env.freshUuid
    let pre : List Event :=
      [Event.setIsAnalyzing true, Event.setError none, Event.setProgress 0,
       Event.setMessage "Initializing tennis analysis...",
       Event.setAnalysisId newAnalysisId,
       Event.initCall boxes meta.width meta.height]
    match env.trackerInit with
    | Except.error e =>
        pre ++ [Event.consoleError e,
          Event.setError (some (messageOr e "Error analyzing video")),
          Event.setIsAnalyzing false]
    | Except.ok init =>
      if env.videoLoads then
        let duration := env.duration
        let totalFrames := totalFramesOf duration
        let loop := frameLoop env init.pixelsToMeters totalFrames 1
          [init.initialFrame]
        let gmeta : AnalysisVideoMeta :=
          ⟨duration, meta.width, meta.height, 30⟩
        match env.generate loop.2 gmeta init.pixelsToMeters with
        | Except.error e =>
            pre ++ loop.1 ++
              [Event.generateCall loop.2 gmeta init.pixelsToMeters,
               Event.consoleError e,
               Event.setError (some (messageOr e "Error analyzing video")),
               Event.setIsAnalyzing false]
        | Except.ok result =>
            pre ++ loop.1 ++
              [Event.generateCall loop.2 gmeta init.pixelsToMeters,
               Event.storageWrite ("analysis-" ++ newAnalysisId)
                 (env.stringify result),
               Event.navigate ("/tennis/results/" ++ newAnalysisId ++
                 "?videoUrl=" ++ env.encode url)]
      else
        pre ++ [Event.consoleError "Failed to load video",
          Event.setError
            (some (messageOr "Failed to load video" "Error analyzing video")),
          Event.setIsAnalyzing false]
  | _, _ =>
      [Event.setError (some "Video not properly loaded. Please try again.")]

/-- The state changes performed by `handleBoxesSelected(boxes)`:
whether an error was set, whether the boxes were stored in `selectedBoxes`,
whether the box selector was hidden, and whether `startTennisAnalysis` was
called. -/
structure BoxesSelectedResult where
  error : Option String
  selectedBoxes : Option (List BoundingBox)
  boxSelectorHidden : Bool
  analysisStarted : Bool
deriving DecidableEq

/-- `handleBoxesSelected`: requires at least one box labelled `player` and
one labelled `ball`, otherwise sets an error and returns early. -/
def handleBoxesSelected (boxes : List BoundingBox) : BoxesSelectedResult :=
  if !(boxes.any fun box => box.label == "player")
      || !(boxes.any fun box => box.label == "ball") then
    { error := some "Please draw bounding boxes for both the player and the ball.",
      selectedBoxes := none, boxSelectorHidden := false,
      analysisStarted := false }
  else
    { error := none, selectedBoxes := some boxes,
      boxSelectorHidden := true, analysisStarted := true }

/-- The parsed analysis value handled by the results page.  The page only
checks truthiness of its `frames` and `playerStats` fields, so those are
modelled as flags over an abstract payload. -/
structure ParsedAnalysis where
  hasFrames : Bool
  hasPlayerStats : Bool
  payload : ℕ
deriving DecidableEq

/-- The `VideoAnalysis` object handled by the results page. -/
structure VideoAnalysisObj where
  id : String
  user_id : String
  video_url : String
  sport_type : String
  analysis_status : String
  analysis_result : Option ParsedAnalysis
  created_at : String
deriving DecidableEq

/-- The `data` object obtained from `fetch` + `response.json()` on the
analysis API: `response.ok`, `data.error` and `data.analysis`. -/
structure ApiData where
  ok : Bool
  error : Option String
  analysis : Option VideoAnalysisObj
deriving DecidableEq

/-- One observable effect performed by the results page `fetchAnalysis`:
the `localStorage.getItem` read, the API `fetch`, and the state setters. -/
inductive FetchEvent where
  | localGet (key : String)
  | apiFetch (url : String)
  | setAnalysis (a : Option VideoAnalysisObj)
  | setTennisAnalysis (p : ParsedAnalysis)
  | setError (m : String)
  | setLoading (b : Bool)
  | consoleError (m : String)
deriving DecidableEq

/-- The oracle environment for one run of `fetchAnalysis`:
`localStorage.getItem`, `JSON.parse` (which may throw), the API fetch
composed with `response.json()` (which may reject), and
`new Date().toISOString()`. -/
structure FetchEnv where
  localStore : String → Option String
  parse : String → Except String ParsedAnalysis
  api : String → Except String ApiData
  now : String

/-- Modelled message of the TypeError thrown when `data.analysis` is null
and `data.analysis.analysis_result` is read. -/
def nullAnalysisError : String := "Cannot read properties of null"

/-- The trace of the results page `fetchAnalysis` for route parameter `id`
and query parameter `videoUrl`.  Mirrors the source: the localStorage read
takes precedence; only when the key is absent is `/api/analysis/:id`
fetched; errors anywhere are caught, logged and turned into the error state;
`setLoading(false)` runs in `finally`. -/
def fetchAnalysis (id : String) (videoUrlFromQuery : Option String)
    (env : FetchEnv) : List FetchEvent :=
  let key := "analysis-" ++ id
  let getEv := FetchEvent.localGet key
  match env.localStore key with
  | some stored =>
    match env.parse stored with
    | Except.error e =>
        [getEv, FetchEvent.consoleError e,
         FetchEvent.setError (messageOr e "Error fetching analysis"),
         FetchEvent.setLoading false]
    | Except.ok parsed =>
        let analysisObj : VideoAnalysisObj :=
          ⟨id, "client-user", videoUrlFromQuery.getD "", "tennis",
           "completed", some parsed, env.now⟩
        [getEv, FetchEvent.setAnalysis (some analysisObj),
         FetchEvent.setTennisAnalysis parsed, FetchEvent.setLoading false]
  | none =>
    let apiUrl := "/api/analysis/" ++ id
    let fetchEv := FetchEvent.apiFetch apiUrl
    match env.api apiUrl with
    | Except.error e =>
        [getEv, fetchEv, FetchEvent.consoleError e,
         FetchEvent.setError (messageOr e "Error fetching analysis"),
         FetchEvent.setLoading false]
    | Except.ok data =>
      if !data.ok then
        let e := messageOr (data.error.getD "") "Failed to fetch analysis"
        [getEv, fetchEv, FetchEvent.consoleError e,
         FetchEvent.setError (messageOr e "Error fetching analysis"),
         FetchEvent.setLoading false]
      else
        let analysis1 : Option VideoAnalysisObj :=
          match videoUrlFromQuery, data.analysis with
          | some u, some a =>
              some ⟨a.id, a.user_id, u, a.sport_type, a.analysis_status,
                a.analysis_result, a.created_at⟩
          | _, _ => data.analysis
        match analysis1 with
        | none =>
            [getEv, fetchEv, FetchEvent.setAnalysis none,
             FetchEvent.consoleError nullAnalysisError,
             FetchEvent.setError
               (messageOr nullAnalysisError "Error fetching analysis"),
             FetchEvent.setLoading false]
        | some a =>
          match a.analysis_result with
          | some r =>
            if r.hasFrames && r.hasPlayerStats then
              [getEv, fetchEv, FetchEvent.setAnalysis (some a),
               FetchEvent.setTennisAnalysis r, FetchEvent.setLoading false]
            else
              [getEv, fetchEv, FetchEvent.setAnalysis (some a),
               FetchEvent.setLoading false]
          | none =>
              [getEv, fetchEv, FetchEvent.setAnalysis (some a),
               FetchEvent.setLoading false]

/-- The `trackFrame` calls recorded in a trace, in order, with their
arguments. -/
def trackCallsOf (evs : List Event) : List (String × ℕ × ℚ × FrameData × ℚ) :=
  evs.filterMap fun e =>
    match e with
    | Event.trackCall b i t f p => some (b, i, t, f, p)
    | _ => none

/-- The `generateAnalysisResult` calls recorded in a trace, with their
arguments. -/
def generateCallsOf (evs : List Event) :
    List (List FrameData × AnalysisVideoMeta × ℚ) :=
  evs.filterMap fun e =>
    match e with
    | Event.generateCall fl m p => some (fl, m, p)
    | _ => none

/-- The processing messages set in a trace, in order. -/
def messagesOf (evs : List Event) : List String :=
  evs.filterMap fun e =>
    match e with
    | Event.setMessage m => some m
    | _ => none

/-- The `localStorage.setItem` writes recorded in a trace. -/
def storageWritesOf (evs : List Event) : List (String × String) :=
  evs.filterMap fun e =>
    match e with
    | Event.storageWrite k v => some (k, v)
    | _ => none

/-- The `router.push` navigations recorded in a trace. -/
def navigatesOf (evs : List Event) : List String :=
  evs.filterMap fun e =>
    match e with
    | Event.navigate u => some u
    | _ => none

/-- The reference trajectory: the frame collected for index `i` when every
frame extraction and every `trackFrame` call succeeds, given the tracking
function `trk` and the extracted frame data `b64`.  Index `0` is the initial
frame returned by the tracker initialisation. -/
def trajectory (trk : String → ℕ → ℚ → FrameData → FrameData)
    (b64 : ℕ → String) (initialFrame : FrameData) : ℕ → FrameData
  | 0 => initialFrame
  | i + 1 => trk (b64 (i + 1)) (i + 1) (timestampAt (i + 1))
      (trajectory trk b64 initialFrame i)

/-- The phase index of the processing message chosen at a loop iteration:
`0` for the extraction message, `1` for the tracking message, `2` for the
analysis message. -/
def msgPhase (frameIndex totalFrames : ℕ) : ℕ :=
  if (frameIndex : ℚ) < (totalFrames : ℚ) * (3 / 10) then 0
  else if (frameIndex : ℚ) < (totalFrames : ℚ) * (6 / 10) then 1
  else 2

/-- The message text of each phase. -/
def phaseMessage : ℕ → String
  | 0 => "Extracting video frames..."
  | 1 => "Tracking player and ball..."
  | _ => "Analyzing player performance..."

/-- Classifies the exceptions that escape the outer `try` block of
`startTennisAnalysis` for a given environment and metadata: failure of
`initializeTennisTracker`, failure of the video load, or failure of
`generateAnalysisResult`; `none` when the run completes. -/
def outerFailure (env : TennisEnv) (meta : VideoMetadata) : Option String :=
  match env.trackerInit with
  | Except.error e => some e
  | Except.ok init =>
    if env.videoLoads then
      match env.generate
          (frameLoop env init.pixelsToMeters (totalFramesOf env.duration) 1
            [init.initialFrame]).2
          ⟨env.duration, meta.width, meta.height, 30⟩ init.pixelsToMeters with
      | Except.error e => some e
      | Except.ok _ => none
    else some "Failed to load video"

/-- A concrete initial frame used by the witness runs. -/
def demoFrame : FrameData := ⟨0⟩

/-- A concrete tracker initialisation used by the witness runs. -/
def demoInit : TrackerInit := ⟨demoFrame, 1⟩

/-- A fully successful concrete environment: a 5/2-second video sampled at
2 fps (5 frames), every extraction and tracking call succeeding. -/
def demoEnv : TennisEnv :=
  ⟨"uuid-1", Except.ok demoInit, true, 5 / 2, fun _ => some "frame",
   fun _ _ _ f _ => some ⟨f.tag + 1⟩, fun fl _ _ => Except.ok ⟨fl.length⟩,
   fun r => "stored-" ++ toString r.tag, fun s => s⟩

/-- Concrete page video metadata matching `demoEnv`. -/
def demoMeta : VideoMetadata := ⟨640, 360, 5 / 2⟩

/-- A concrete environment whose tracker initialisation throws. -/
def failEnv : TennisEnv :=
  ⟨"uuid-1", Except.error "init failed", true, 5 / 2, fun _ => some "frame",
   fun _ _ _ f _ => some ⟨f.tag + 1⟩, fun fl _ _ => Except.ok ⟨fl.length⟩,
   fun r => "stored-" ++ toString r.tag, fun s => s⟩

/-- A concrete environment for a 2-second video (4 frames) in which frame
extraction throws at frame index 1 and succeeds everywhere else. -/
def skipEnv : TennisEnv :=
  ⟨"uuid-1", Except.ok demoInit, true, 2,
   fun i => if i = 1 then none else some "frame",
   fun _ _ _ f _ => some ⟨f.tag + 1⟩, fun fl _ _ => Except.ok ⟨fl.length⟩,
   fun r => "stored-" ++ toString r.tag, fun s => s⟩

/-- A concrete parsed analysis value. -/
def demoParsed : ParsedAnalysis := ⟨true, true, 7⟩

/-- A concrete fetch environment in which the localStorage entry for id
`abc` exists and parses. -/
def localFetchEnv : FetchEnv :=
  ⟨fun k => if k = "analysis-abc" then some "stored" else none,
   fun _ => Except.ok demoParsed, fun _ => Except.error "no network",
   "2026-01-01T00:00:00.000Z"⟩

/-- A concrete fetch environment with an empty localStorage. -/
def remoteFetchEnv : FetchEnv :=
  ⟨fun _ => none, fun _ => Except.ok demoParsed,
   fun _ => Except.ok ⟨true, none, none⟩, "2026-01-01T00:00:00.000Z"⟩

lemma frameLoopAux_stop (env : TennisEnv) (ptm : ℚ) (tot fuel i : ℕ)
    (frames : List FrameData) (h : ¬ i < tot) :
    frameLoopAux env ptm tot fuel i frames = ([], frames) := by
  cases fuel with
  | zero => rfl
  | succ n => simp [frameLoopAux, h]

lemma frameLoopAux_go (env : TennisEnv) (ptm : ℚ) (tot fuel i : ℕ)
    (frames : List FrameData) (h : i < tot) :
    frameLoopAux env ptm tot (fuel + 1) i frames =
      (Event.setMessage (processingMessageAt i tot) ::
        (frameStep env ptm tot i frames).1 ++
        (frameLoopAux env ptm tot fuel (i + 1)
          (frameStep env ptm tot i frames).2).1,
       (frameLoopAux env ptm tot fuel (i + 1)
          (frameStep env ptm tot i frames).2).2) := by
  simp [frameLoopAux, h]

lemma frameStep_extract_none (env : TennisEnv) (ptm : ℚ) (tot i : ℕ)
    (frames : List FrameData) (h : env.extract i = none) :
    frameStep env ptm tot i frames =
      ([Event.frameError (timestampAt i)], frames) := by
  simp [frameStep, h]

lemma frameStep_track_none (env : TennisEnv) (ptm : ℚ) (tot i : ℕ)
    (frames : List FrameData) (b64 : String)
    (hb : env.extract i = some b64)
    (ht : env.track b64 i (timestampAt i) (lastFrame frames) ptm = none) :
    frameStep env ptm tot i frames =
      ([Event.trackCall b64 i (timestampAt i) (lastFrame frames) ptm,
        Event.frameError (timestampAt i)], frames) := by
  simp [frameStep, hb, ht]

lemma frameStep_track_some (env : TennisEnv) (ptm : ℚ) (tot i : ℕ)
    (frames : List FrameData) (b64 : String) (f : FrameData)
    (hb : env.extract i = some b64)
    (ht : env.track b64 i (timestampAt i) (lastFrame frames) ptm = some f) :
    frameStep env ptm tot i frames =
      ([Event.trackCall b64 i (timestampAt i) (lastFrame frames) ptm,
        Event.setProgress (progressAt i tot)], frames ++ [f]) := by
  simp [frameStep, hb, ht]

lemma frameLoopAux_events_shape (env : TennisEnv) (ptm : ℚ) (tot : ℕ) :
    ∀ fuel i frames, ∀ e ∈ (frameLoopAux env ptm tot fuel i frames).1,
      (∃ m, e = Event.setMessage m) ∨
      (∃ b j t f p, e = Event.trackCall b j t f p) ∨
      (∃ t, e = Event.frameError t) ∨ (∃ p, e = Event.setProgress p) := by
  intro fuel
  induction fuel with
  | zero => intro i frames e he; simp [frameLoopAux] at he
  | succ n ih =>
    intro i frames e he
    by_cases h : i < tot
    · rw [frameLoopAux_go env ptm tot n i frames h] at he
      simp only [List.mem_cons, List.mem_append] at he
      rcases he with (rfl | he) | he
      · exact Or.inl ⟨_, rfl⟩
      · rcases hE : env.extract i with _ | b64
        · rw [frameStep_extract_none env ptm tot i frames hE] at he
          simp only [List.mem_singleton] at he
          subst he
          exact Or.inr (Or.inr (Or.inl ⟨_, rfl⟩))
        · rcases hT : env.track b64 i (timestampAt i) (lastFrame frames) ptm
            with _ | f
          · rw [frameStep_track_none env ptm tot i frames b64 hE hT] at he
            simp only [List.mem_cons, List.mem_singleton,
              List.not_mem_nil, or_false] at he
            rcases he with rfl | rfl
            · exact Or.inr (Or.inl ⟨_, _, _, _, _, rfl⟩)
            · exact Or.inr (Or.inr (Or.inl ⟨_, rfl⟩))
          · rw [frameStep_track_some env ptm tot i frames b64 f hE hT] at he
            simp only [List.mem_cons, List.mem_singleton,
              List.not_mem_nil, or_false] at he
            rcases he with rfl | rfl
            · exact Or.inr (Or.inl ⟨_, _, _, _, _, rfl⟩)
            · exact Or.inr (Or.inr (Or.inr ⟨_, rfl⟩))
      · exact ih (i + 1) _ e he
    · rw [frameLoopAux_stop env ptm tot (n + 1) i frames h] at he
      simp at he

@[simp] lemma messagesOf_nil : messagesOf [] = [] := rfl

@[simp] lemma trackCallsOf_nil : trackCallsOf [] = [] := rfl

@[simp] lemma generateCallsOf_nil : generateCallsOf [] = [] := rfl

@[simp] lemma storageWritesOf_nil : storageWritesOf [] = [] := rfl

@[simp] lemma navigatesOf_nil : navigatesOf [] = [] := rfl

@[simp] lemma messagesOf_append (l1 l2 : List Event) :
    messagesOf (l1 ++ l2) = messagesOf l1 ++ messagesOf l2 :=
  List.filterMap_append l1 l2 _

@[simp] lemma trackCallsOf_append (l1 l2 : List Event) :
    trackCallsOf (l1 ++ l2) = trackCallsOf l1 ++ trackCallsOf l2 :=
  List.filterMap_append l1 l2 _

@[simp] lemma generateCallsOf_append (l1 l2 : List Event) :
    generateCallsOf (l1 ++ l2) = generateCallsOf l1 ++ generateCallsOf l2 :=
  List.filterMap_append l1 l2 _

@[simp] lemma storageWritesOf_append (l1 l2 : List Event) :
    storageWritesOf (l1 ++ l2) = storageWritesOf l1 ++ storageWritesOf l2 :=
  List.filterMap_append l1 l2 _

@[simp] lemma navigatesOf_append (l1 l2 : List Event) :
    navigatesOf (l1 ++ l2) = navigatesOf l1 ++ navigatesOf l2 :=
  List.filterMap_append l1 l2 _

@[simp] lemma messagesOf_cons (e : Event) (evs : List Event) :
    messagesOf (e :: evs) =
      (match e with | Event.setMessage m => [m] | _ => []) ++ messagesOf evs := by
  cases e <;> rfl

@[simp] lemma trackCallsOf_cons (e : Event) (evs : List Event) :
    trackCallsOf (e :: evs) =
      (match e with
       | Event.trackCall b i t f p => [(b, i, t, f, p)]
       | _ => []) ++ trackCallsOf evs := by
  cases e <;> rfl

@[simp] lemma generateCallsOf_cons (e : Event) (evs : List Event) :
    generateCallsOf (e :: evs) =
      (match e with
       | Event.generateCall fl m p => [(fl, m, p)]
       | _ => []) ++ generateCallsOf evs := by
  cases e <;> rfl

@[simp] lemma storageWritesOf_cons (e : Event) (evs : List Event) :
    storageWritesOf (e :: evs) =
      (match e with | Event.storageWrite k v => [(k, v)] | _ => []) ++
        storageWritesOf evs := by
  cases e <;> rfl

@[simp] lemma navigatesOf_cons (e : Event) (evs : List Event) :
    navigatesOf (e :: evs) =
      (match e with | Event.navigate u => [u] | _ => []) ++ navigatesOf evs := by
  cases e <;> rfl

lemma storageWrite_not_mem_loop (env : TennisEnv) (ptm : ℚ)
    (tot fuel i : ℕ) (frames : List FrameData) (k v : String) :
    Event.storageWrite k v ∉ (frameLoopAux env ptm tot fuel i frames).1 := by
  intro h
  rcases frameLoopAux_events_shape env ptm tot fuel i frames _ h with
    ⟨m, hm⟩ | ⟨b, j, t, f, p, hm⟩ | ⟨t, hm⟩ | ⟨p, hm⟩ <;> simp at hm

lemma navigate_not_mem_loop (env : TennisEnv) (ptm : ℚ)
    (tot fuel i : ℕ) (frames : List FrameData) (u : String) :
    Event.navigate u ∉ (frameLoopAux env ptm tot fuel i frames).1 := by
  intro h
  rcases frameLoopAux_events_shape env ptm tot fuel i frames _ h with
    ⟨m, hm⟩ | ⟨b, j, t, f, p, hm⟩ | ⟨t, hm⟩ | ⟨p, hm⟩ <;> simp at hm

lemma generateCall_not_mem_loop (env : TennisEnv) (ptm : ℚ)
    (tot fuel i : ℕ) (frames fl : List FrameData)
    (gm : AnalysisVideoMeta) (p0 : ℚ) :
    Event.generateCall fl gm p0 ∉ (frameLoopAux env ptm tot fuel i frames).1 := by
  intro h
  rcases frameLoopAux_events_shape env ptm tot fuel i frames _ h with
    ⟨m, hm⟩ | ⟨b, j, t, f, p, hm⟩ | ⟨t, hm⟩ | ⟨p, hm⟩ <;> simp at hm

lemma messagesOf_frameLoopAux (env : TennisEnv) (ptm : ℚ) (tot : ℕ) :
    ∀ fuel i frames, tot ≤ i + fuel →
      messagesOf (frameLoopAux env ptm tot fuel i frames).1 =
        (List.range' i (tot - i)).map fun j => processingMessageAt j tot := by
  intro fuel
  induction fuel with
  | zero =>
    intro i frames hle
    have h0 : tot - i = 0 := by omega
    simp [frameLoopAux, h0]
  | succ n ih =>
    intro i frames hle
    by_cases h : i < tot
    · rw [frameLoopAux_go env ptm tot n i frames h]
      have h1 : tot - i = (tot - (i + 1)) + 1 := by omega
      rw [h1, List.range'_succ]
      have hstep : messagesOf (frameStep env ptm tot i frames).1 = [] := by
        rcases hE : env.extract i with _ | b64
        · rw [frameStep_extract_none env ptm tot i frames hE]; rfl
        · rcases hT : env.track b64 i (timestampAt i) (lastFrame frames) ptm
            with _ | f
          · rw [frameStep_track_none env ptm tot i frames b64 hE hT]; rfl
          · rw [frameStep_track_some env ptm tot i frames b64 f hE hT]; rfl
      simp [hstep, ih (i + 1) (frameStep env ptm tot i frames).2 (by omega)]
    · rw [frameLoopAux_stop env ptm tot (n + 1) i frames h]
      have h0 : tot - i = 0 := by omega
      simp [h0]

lemma progress_mem_frameLoopAux (env : TennisEnv) (ptm : ℚ) (tot : ℕ) :
    ∀ fuel i frames p,
      Event.setProgress p ∈ (frameLoopAux env ptm tot fuel i frames).1 →
      ∃ j, i ≤ j ∧ j < tot ∧ p = progressAt j tot := by
  intro fuel
  induction fuel with
  | zero => intro i frames p hp; simp [frameLoopAux] at hp
  | succ n ih =>
    intro i frames p hp
    by_cases h : i < tot
    · rw [frameLoopAux_go env ptm tot n i frames h] at hp
      simp only [List.mem_cons, List.mem_append] at hp
      rcases hp with (hp | hp) | hp
      · simp at hp
      · rcases hE : env.extract i with _ | b64
        · rw [frameStep_extract_none env ptm tot i frames hE] at hp
          simp at hp
        · rcases hT : env.track b64 i (timestampAt i) (lastFrame frames) ptm
            with _ | f
          · rw [frameStep_track_none env ptm tot i frames b64 hE hT] at hp
            simp at hp
          · rw [frameStep_track_some env ptm tot i frames b64 f hE hT] at hp
            simp only [List.mem_cons, List.mem_singleton,
              List.not_mem_nil, or_false] at hp
            rcases hp with hp | hp
            · simp at hp
            · exact ⟨i, le_refl i, h, by injection hp⟩
      · obtain ⟨j, h1, h2, h3⟩ := ih (i + 1) _ p hp
        exact ⟨j, by omega, h2, h3⟩
    · rw [frameLoopAux_stop env ptm tot (n + 1) i frames h] at hp
      simp at hp

lemma lastFrame_range_map (g : ℕ → FrameData) (i : ℕ) :
    lastFrame ((List.range (i + 1)).map g) = g i := by
  simp [lastFrame, List.range_succ]

lemma frameLoopAux_success (env : TennisEnv) (ptm : ℚ) (tot : ℕ)
    (b64f : ℕ → String) (trkf : String → ℕ → ℚ → FrameData → FrameData)
    (f0 : FrameData)
    (hex : ∀ i, env.extract i = some (b64f i))
    (htr : ∀ b i t f, env.track b i t f ptm = some (trkf b i t f)) :
    ∀ fuel i, tot ≤ i + fuel → 1 ≤ i →
      (frameLoopAux env ptm tot fuel i
          ((List.range i).map (trajectory trkf b64f f0))).2 =
        (List.range (max i tot)).map (trajectory trkf b64f f0) ∧
      trackCallsOf (frameLoopAux env ptm tot fuel i
          ((List.range i).map (trajectory trkf b64f f0))).1 =
        (List.range' i (tot - i)).map fun j =>
          (b64f j, j, timestampAt j, trajectory trkf b64f f0 (j - 1), ptm) := by
  intro fuel
  induction fuel with
  | zero =>
    intro i hle hi
    have h0 : tot - i = 0 := by omega
    have hmax : max i tot = i := by omega
    simp [frameLoopAux, h0, hmax]
  | succ n ih =>
    intro i hle hi
    by_cases h : i < tot
    · obtain ⟨k, rfl⟩ : ∃ k, i = k + 1 := ⟨i - 1, by omega⟩
      rw [frameLoopAux_go env ptm tot n (k + 1) _ h]
      have hlast : lastFrame ((List.range (k + 1)).map (trajectory trkf b64f f0))
          = trajectory trkf b64f f0 k := lastFrame_range_map _ _
      have ht : env.track (b64f (k + 1)) (k + 1) (timestampAt (k + 1))
          (lastFrame ((List.range (k + 1)).map (trajectory trkf b64f f0))) ptm
          = some (trajectory trkf b64f f0 (k + 1)) := by
        rw [hlast]; exact htr _ _ _ _
      rw [frameStep_track_some env ptm tot (k + 1) _ (b64f (k + 1))
        (trajectory trkf b64f f0 (k + 1)) (hex (k + 1)) ht]
      have hframes : (List.range (k + 1)).map (trajectory trkf b64f f0) ++
          [trajectory trkf b64f f0 (k + 1)] =
          (List.range (k + 2)).map (trajectory trkf b64f f0) := by
        rw [List.range_succ (k + 1)]
        simp
      rw [hframes]
      obtain ⟨ih2, ih1⟩ := ih (k + 2) (by omega) (by omega)
      constructor
      · rw [ih2]
        have : max (k + 1) tot = max (k + 2) tot := by omega
        rw [this]
      · have h1 : tot - (k + 1) = (tot - (k + 2)) + 1 := by omega
        rw [h1, List.range'_succ]
        simp only [List.map_cons]
        have hsimp : (k + 1) - 1 = k := by omega
        simp [ih1, hsimp, hlast]
    · rw [frameLoopAux_stop env ptm tot (n + 1) i _ h]
      have h0 : tot - i = 0 := by omega
      have hmax : max i tot = i := by omega
      simp [h0, hmax]

lemma processingMessageAt_eq_phase (i tot : ℕ) :
    processingMessageAt i tot = phaseMessage (msgPhase i tot) := by
  unfold processingMessageAt msgPhase phaseMessage
  split_ifs <;> rfl

lemma msgPhase_mono (tot : ℕ) {i j : ℕ} (hij : i ≤ j) :
    msgPhase i tot ≤ msgPhase j tot := by
  have hq : (i : ℚ) ≤ (j : ℚ) := by exact_mod_cast hij
  unfold msgPhase
  split_ifs <;> first | omega | (exfalso; linarith)

/-- C6: during the frame loop the processing message at iteration
`frameIndex` is determined by the frame index relative to `totalFrames`:
the extraction message while `frameIndex < totalFrames * 0.3`, the tracking
message while `frameIndex < totalFrames * 0.6`, and the analysis message
otherwise; the loop emits exactly these messages for frame indices
`1, …, totalFrames − 1` in order, and the phase of the message is monotone
in the frame index, so the message never reverts to an earlier phase. -/
theorem claim6_processing_messages (env : TennisEnv) (ptm : ℚ) (tot : ℕ)
    (frames : List FrameData) :
    messagesOf (frameLoop env ptm tot 1 frames).1 =
      (List.range' 1 (tot - 1)).map (fun j => processingMessageAt j tot) ∧
    (∀ i, processingMessageAt i tot =
      if (i : ℚ) < (tot : ℚ) * (3 / 10) then "Extracting video frames..."
      else if (i : ℚ) < (tot : ℚ) * (6 / 10) then "Tracking player and ball..."
      else "Analyzing player performance...") ∧
    (∀ i, processingMessageAt i tot = phaseMessage (msgPhase i tot)) ∧
    (∀ i j, i ≤ j → msgPhase i tot ≤ msgPhase j tot) :=
  ⟨messagesOf_frameLoopAux env ptm tot (tot - 1) 1 frames (by omega),
   fun _ => rfl,
   fun i => processingMessageAt_eq_phase i tot,
   fun _ _ hij => msgPhase_mono tot hij⟩

/-- Witness for C6 at a concrete run: a 10-frame loop over the demo
environment, and a concrete pair of indices for monotonicity. -/
theorem claim6_witness :
    messagesOf (frameLoop demoEnv 1 10 1 [demoFrame]).1 =
      (List.range' 1 9).map (fun j => processingMessageAt j 10) ∧
    msgPhase 2 10 ≤ msgPhase 7 10 :=
  ⟨(claim6_processing_messages demoEnv 1 10 [demoFrame]).1,
   (claim6_processing_messages demoEnv 1 10 [demoFrame]).2.2.2 2 7
     (by decide)⟩

/-- C10: every progress value set during the frame loop is
`(frameIndex / totalFrames) * 100` for some `frameIndex` between `1` and
`totalFrames − 1`, so the displayed progress stays strictly below 100
percent for the entire analysis. -/
theorem claim10_progress_below_100 (env : TennisEnv) (ptm : ℚ) (tot : ℕ)
    (frames : List FrameData) (htot : 1 ≤ tot) (p : ℚ)
    (hp : Event.setProgress p ∈ (frameLoop env ptm tot 1 frames).1) :
    (∃ j, 1 ≤ j ∧ j ≤ tot - 1 ∧ p = progressAt j tot) ∧ p < 100 := by
  obtain ⟨j, h1, h2, h3⟩ :=
    progress_mem_frameLoopAux env ptm tot (tot - 1) 1 frames p hp
  have htq : (0 : ℚ) < (tot : ℚ) := by exact_mod_cast (by omega : 0 < tot)
  have hjq : (j : ℚ) < (tot : ℚ) := by exact_mod_cast h2
  have hdiv : (j : ℚ) / (tot : ℚ) < 1 := (div_lt_one htq).mpr hjq
  have hlt : progressAt j tot < 100 := by
    have h100 := mul_lt_mul_of_pos_right hdiv (by norm_num : (0 : ℚ) < 100)
    simpa [progressAt] using h100
  exact ⟨⟨j, h1, by omega, h3⟩, h3 ▸ hlt⟩

/-- Witness for C10 at a concrete run: the progress value set for frame 1
of a 5-frame analysis. -/
theorem claim10_witness :
    (∃ j, 1 ≤ j ∧ j ≤ 5 - 1 ∧ progressAt 1 5 = progressAt j 5) ∧
    progressAt 1 5 < 100 :=
  claim10_progress_below_100 demoEnv 1 5 [demoFrame] (by decide)
    (progressAt 1 5) (by decide)

/-- C7: when `videoUrl` or `videoMetadata` is null, `startTennisAnalysis`
only sets the error `Video not properly loaded. Please try again.` and
returns: it never sets `isAnalyzing`, never generates an analysis id, and
never calls `initializeTennisTracker`. -/
theorem claim7_video_required (videoUrl : Option String)
    (videoMetadata : Option VideoMetadata) (boxes : List BoundingBox)
    (env : TennisEnv) (h : videoUrl = none ∨ videoMetadata = none) :
    startTennisAnalysis videoUrl videoMetadata boxes env =
      [Event.setError (some "Video not properly loaded. Please try again.")] ∧
    (∀ b, Event.setIsAnalyzing b ∉
      startTennisAnalysis videoUrl videoMetadata boxes env) ∧
    (∀ s, Event.setAnalysisId s ∉
      startTennisAnalysis videoUrl videoMetadata boxes env) ∧
    (∀ bs w hh, Event.initCall bs w hh ∉
      startTennisAnalysis videoUrl videoMetadata boxes env) := by
  have heq : startTennisAnalysis videoUrl videoMetadata boxes env =
      [Event.setError (some "Video not properly loaded. Please try again.")] := by
    rcases h with rfl | rfl
    · cases videoMetadata <;> rfl
    · cases videoUrl <;> rfl
  refine ⟨heq, fun b => ?_, fun s => ?_, fun bs w hh => ?_⟩ <;>
    rw [heq] <;> simp

/-- Witness for C7 at a concrete input: a null video URL. -/
theorem claim7_witness :
    startTennisAnalysis none (some demoMeta) [] demoEnv =
      [Event.setError (some "Video not properly loaded. Please try again.")] ∧
    (∀ b, Event.setIsAnalyzing b ∉
      startTennisAnalysis none (some demoMeta) [] demoEnv) ∧
    (∀ s, Event.setAnalysisId s ∉
      startTennisAnalysis none (some demoMeta) [] demoEnv) ∧
    (∀ bs w hh, Event.initCall bs w hh ∉
      startTennisAnalysis none (some demoMeta) [] demoEnv) :=
  claim7_video_required none (some demoMeta) [] demoEnv (Or.inl rfl)

/-- C2: `handleBoxesSelected` starts the tennis analysis if and only if the
submitted box list contains at least one box labelled `player` and at least
one labelled `ball`; when either label is missing it sets the instructional
error and returns without storing the boxes and without calling
`startTennisAnalysis`. -/
theorem claim2_boxes_required (boxes : List BoundingBox) :
    ((handleBoxesSelected boxes).analysisStarted = true ↔
      ((∃ b ∈ boxes, b.label = "player") ∧ (∃ b ∈ boxes, b.label = "ball"))) ∧
    (¬ ((∃ b ∈ boxes, b.label = "player") ∧ (∃ b ∈ boxes, b.label = "ball")) →
      (handleBoxesSelected boxes).error =
        some "Please draw bounding boxes for both the player and the ball." ∧
      (handleBoxesSelected boxes).selectedBoxes = none ∧
      (handleBoxesSelected boxes).analysisStarted = false) := by
  have hP : ((boxes.any fun box => box.label == "player") = true) ↔
      ∃ b ∈ boxes, b.label = "player" := by simp [List.any_eq_true]
  have hB : ((boxes.any fun box => box.label == "ball") = true) ↔
      ∃ b ∈ boxes, b.label = "ball" := by simp [List.any_eq_true]
  by_cases hp : (boxes.any fun box => box.label == "player") = true
  <;> by_cases hb : (boxes.any fun box => box.label == "ball") = true
  · refine ⟨by simp [handleBoxesSelected, hp, hb, hP.mp hp, hB.mp hb], ?_⟩
    intro hcon
    exact absurd ⟨hP.mp hp, hB.mp hb⟩ hcon
  · simp only [Bool.not_eq_true] at hb
    have hmiss : ¬ ((∃ b ∈ boxes, b.label = "player") ∧
        (∃ b ∈ boxes, b.label = "ball")) := by
      rintro ⟨-, h2⟩
      rw [← hB] at h2
      simp [hb] at h2
    refine ⟨?_, fun _ => by simp [handleBoxesSelected, hp, hb]⟩
    simp only [handleBoxesSelected, hp, hb]
    simpa using hmiss
  · simp only [Bool.not_eq_true] at hp
    have hmiss : ¬ ((∃ b ∈ boxes, b.label = "player") ∧
        (∃ b ∈ boxes, b.label = "ball")) := by
      rintro ⟨h1, -⟩
      rw [← hP] at h1
      simp [hp] at h1
    refine ⟨?_, fun _ => by simp [handleBoxesSelected, hp, hb]⟩
    simp only [handleBoxesSelected, hp, hb]
    simpa using hmiss
  · simp only [Bool.not_eq_true] at hp hb
    have hmiss : ¬ ((∃ b ∈ boxes, b.label = "player") ∧
        (∃ b ∈ boxes, b.label = "ball")) := by
      rintro ⟨h1, -⟩
      rw [← hP] at h1
      simp [hp] at h1
    refine ⟨?_, fun _ => by simp [handleBoxesSelected, hp, hb]⟩
    simp only [handleBoxesSelected, hp, hb]
    simpa using hmiss

/-- Witness for C2 at concrete inputs: an empty box list is rejected with
the instructional error. -/
theorem claim2_witness :
    (handleBoxesSelected []).error =
      some "Please draw bounding boxes for both the player and the ball." ∧
    (handleBoxesSelected []).selectedBoxes = none ∧
    (handleBoxesSelected []).analysisStarted = false :=
  (claim2_boxes_required []).2 (by simp)

lemma storageWritesOf_loop (env : TennisEnv) (ptm : ℚ) (tot fuel i : ℕ)
    (frames : List FrameData) :
    storageWritesOf (frameLoopAux env ptm tot fuel i frames).1 = [] := by
  rw [storageWritesOf, List.filterMap_eq_nil_iff]
  intro e he
  rcases frameLoopAux_events_shape env ptm tot fuel i frames _ he with
    ⟨m, rfl⟩ | ⟨b, j, t, f, p, rfl⟩ | ⟨t, rfl⟩ | ⟨p, rfl⟩ <;> rfl

lemma navigatesOf_loop (env : TennisEnv) (ptm : ℚ) (tot fuel i : ℕ)
    (frames : List FrameData) :
    navigatesOf (frameLoopAux env ptm tot fuel i frames).1 = [] := by
  rw [navigatesOf, List.filterMap_eq_nil_iff]
  intro e he
  rcases frameLoopAux_events_shape env ptm tot fuel i frames _ he with
    ⟨m, rfl⟩ | ⟨b, j, t, f, p, rfl⟩ | ⟨t, rfl⟩ | ⟨p, rfl⟩ <;> rfl

lemma generateCallsOf_loop (env : TennisEnv) (ptm : ℚ) (tot fuel i : ℕ)
    (frames : List FrameData) :
    generateCallsOf (frameLoopAux env ptm tot fuel i frames).1 = [] := by
  rw [generateCallsOf, List.filterMap_eq_nil_iff]
  intro e he
  rcases frameLoopAux_events_shape env ptm tot fuel i frames _ he with
    ⟨m, rfl⟩ | ⟨b, j, t, f, p, rfl⟩ | ⟨t, rfl⟩ | ⟨p, rfl⟩ <;> rfl

lemma run_init_error (url : String) (meta : VideoMetadata)
    (boxes : List BoundingBox) (env : TennisEnv) (e : String)
    (hinit : env.trackerInit = Except.error e) :
    startTennisAnalysis (some url) (some meta) boxes env =
      [Event.setIsAnalyzing true, Event.setError none, Event.setProgress 0,
       Event.setMessage "Initializing tennis analysis...",
       Event.setAnalysisId ("tennis-" ++ env.freshUuid),
       Event.initCall boxes meta.width meta.height] ++
      [Event.consoleError e,
       Event.setError (some (messageOr e "Error analyzing video")),
       Event.setIsAnalyzing false] := by
  simp only [startTennisAnalysis, hinit]

lemma run_load_error (url : String) (meta : VideoMetadata)
    (boxes : List BoundingBox) (env : TennisEnv) (init : TrackerInit)
    (hinit : env.trackerInit = Except.ok init)
    (hload : env.videoLoads = false) :
    startTennisAnalysis (some url) (some meta) boxes env =
      [Event.setIsAnalyzing true, Event.setError none, Event.setProgress 0,
       Event.setMessage "Initializing tennis analysis...",
       Event.setAnalysisId ("tennis-" ++ env.freshUuid),
       Event.initCall boxes meta.width meta.height] ++
      [Event.consoleError "Failed to load video",
       Event.setError
         (some (messageOr "Failed to load video" "Error analyzing video")),
       Event.setIsAnalyzing false] := by
  simp only [startTennisAnalysis, hinit, hload, Bool.false_eq_true, if_false]

lemma run_gen_error (url : String) (meta : VideoMetadata)
    (boxes : List BoundingBox) (env : TennisEnv) (init : TrackerInit)
    (e : String) (hinit : env.trackerInit = Except.ok init)
    (hload : env.videoLoads = true)
    (hgen : env.generate
        (frameLoop env init.pixelsToMeters (totalFramesOf env.duration) 1
          [init.initialFrame]).2
        ⟨env.duration, meta.width, meta.height, 30⟩ init.pixelsToMeters =
      Except.error e) :
    startTennisAnalysis (some url) (some meta) boxes env =
      [Event.setIsAnalyzing true, Event.setError none, Event.setProgress 0,
       Event.setMessage "Initializing tennis analysis...",
       Event.setAnalysisId ("tennis-" ++ env.freshUuid),
       Event.initCall boxes meta.width meta.height] ++
      (frameLoop env init.pixelsToMeters (totalFramesOf env.duration) 1
        [init.initialFrame]).1 ++
      [Event.generateCall
         (frameLoop env init.pixelsToMeters (totalFramesOf env.duration) 1
           [init.initialFrame]).2
         ⟨env.duration, meta.width, meta.height, 30⟩ init.pixelsToMeters,
       Event.consoleError e,
       Event.setError (some (messageOr e "Error analyzing video")),
       Event.setIsAnalyzing false] := by
  simp only [startTennisAnalysis, hinit, hload, if_true, hgen]

lemma run_gen_ok (url : String) (meta : VideoMetadata)
    (boxes : List BoundingBox) (env : TennisEnv) (init : TrackerInit)
    (r : TennisAnalysisResult) (hinit : env.trackerInit = Except.ok init)
    (hload : env.videoLoads = true)
    (hgen : env.generate
        (frameLoop env init.pixelsToMeters (totalFramesOf env.duration) 1
          [init.initialFrame]).2
        ⟨env.duration, meta.width, meta.height, 30⟩ init.pixelsToMeters =
      Except.ok r) :
    startTennisAnalysis (some url) (some meta) boxes env =
      [Event.setIsAnalyzing true, Event.setError none, Event.setProgress 0,
       Event.setMessage "Initializing tennis analysis...",
       Event.setAnalysisId ("tennis-" ++ env.freshUuid),
       Event.initCall boxes meta.width meta.height] ++
      (frameLoop env init.pixelsToMeters (totalFramesOf env.duration) 1
        [init.initialFrame]).1 ++
      [Event.generateCall
         (frameLoop env init.pixelsToMeters (totalFramesOf env.duration) 1
           [init.initialFrame]).2
         ⟨env.duration, meta.width, meta.height, 30⟩ init.pixelsToMeters,
       Event.storageWrite ("analysis-" ++ ("tennis-" ++ env.freshUuid))
         (env.stringify r),
       Event.navigate ("/tennis/results/" ++ ("tennis-" ++ env.freshUuid) ++
         "?videoUrl=" ++ env.encode url)] := by
  simp only [startTennisAnalysis, hinit, hload, if_true, hgen]

/-- C4 counterexample: in a concrete run where frame processing throws at
frame index 1, the harness logs the per-frame error, continues with frame 2
(the `trackFrame` call for index 2 still receives the initial frame as the
most recent one), and the analysis still completes with a storage write.
This refutes the claim that the shown code contains no failure-recovery
logic for errors occurring during frame processing. -/
theorem claim4_counterexample :
    Event.frameError (timestampAt 1) ∈
      startTennisAnalysis (some "video.mp4") (some demoMeta) [] skipEnv ∧
    Event.trackCall "frame" 2 (timestampAt 2) demoFrame 1 ∈
      startTennisAnalysis (some "video.mp4") (some demoMeta) [] skipEnv ∧
    Event.storageWrite ("analysis-" ++ ("tennis-" ++ "uuid-1")) "stored-3" ∈
      startTennisAnalysis (some "video.mp4") (some demoMeta) [] skipEnv := by
  decide

/-- C4 amended: the shown code does contain one (shallow) level of
failure recovery, in the per-frame `catch` block: an exception while
processing frame `i` — either before `trackFrame` is reached or thrown by
`trackFrame` itself — is caught and logged, the frames list is left
unchanged, and the loop continues with frame `i + 1`; no deeper recovery
(retry, rollback) exists. -/
theorem claim4_per_frame_recovery (env : TennisEnv) (ptm : ℚ)
    (tot i : ℕ) (frames : List FrameData) (hi : i < tot) :
    (env.extract i = none →
      frameLoop env ptm tot i frames =
        (Event.setMessage (processingMessageAt i tot) ::
           Event.frameError (timestampAt i) ::
           (frameLoop env ptm tot (i + 1) frames).1,
         (frameLoop env ptm tot (i + 1) frames).2)) ∧
    (∀ b64, env.extract i = some b64 →
      env.track b64 i (timestampAt i) (lastFrame frames) ptm = none →
      frameLoop env ptm tot i frames =
        (Event.setMessage (processingMessageAt i tot) ::
           Event.trackCall b64 i (timestampAt i) (lastFrame frames) ptm ::
           Event.frameError (timestampAt i) ::
           (frameLoop env ptm tot (i + 1) frames).1,
         (frameLoop env ptm tot (i + 1) frames).2)) := by
  have hf : tot - i = (tot - (i + 1)) + 1 := by omega
  constructor
  · intro hE
    show frameLoopAux env ptm tot (tot - i) i frames = _
    rw [hf, frameLoopAux_go env ptm tot (tot - (i + 1)) i frames hi,
        frameStep_extract_none env ptm tot i frames hE]
    rfl
  · intro b64 hE hT
    show frameLoopAux env ptm tot (tot - i) i frames = _
    rw [hf, frameLoopAux_go env ptm tot (tot - (i + 1)) i frames hi,
        frameStep_track_none env ptm tot i frames b64 hE hT]
    rfl

/-- Witness for the amended C4 at a concrete input: the failing frame 1 of
the 4-frame run over `skipEnv`. -/
theorem claim4_witness :
    frameLoop skipEnv 1 4 1 [demoFrame] =
      (Event.setMessage (processingMessageAt 1 4) ::
         Event.frameError (timestampAt 1) ::
         (frameLoop skipEnv 1 4 2 [demoFrame]).1,
       (frameLoop skipEnv 1 4 2 [demoFrame]).2) :=
  (claim4_per_frame_recovery skipEnv 1 4 1 [demoFrame] (by decide)).1 rfl

lemma storageWrite_not_mem_frameLoop (env : TennisEnv) (ptm : ℚ)
    (tot i : ℕ) (frames : List FrameData) (k v : String) :
    Event.storageWrite k v ∉ (frameLoop env ptm tot i frames).1 :=
  storageWrite_not_mem_loop env ptm tot (tot - i) i frames k v

lemma navigate_not_mem_frameLoop (env : TennisEnv) (ptm : ℚ)
    (tot i : ℕ) (frames : List FrameData) (u : String) :
    Event.navigate u ∉ (frameLoop env ptm tot i frames).1 :=
  navigate_not_mem_loop env ptm tot (tot - i) i frames u

lemma generateCall_not_mem_frameLoop (env : TennisEnv) (ptm : ℚ)
    (tot i : ℕ) (frames fl : List FrameData) (gm : AnalysisVideoMeta)
    (p0 : ℚ) :
    Event.generateCall fl gm p0 ∉ (frameLoop env ptm tot i frames).1 :=
  generateCall_not_mem_loop env ptm tot (tot - i) i frames fl gm p0

@[simp] lemma storageWritesOf_frameLoop (env : TennisEnv) (ptm : ℚ)
    (tot i : ℕ) (frames : List FrameData) :
    storageWritesOf (frameLoop env ptm tot i frames).1 = [] :=
  storageWritesOf_loop env ptm tot (tot - i) i frames

@[simp] lemma navigatesOf_frameLoop (env : TennisEnv) (ptm : ℚ)
    (tot i : ℕ) (frames : List FrameData) :
    navigatesOf (frameLoop env ptm tot i frames).1 = [] :=
  navigatesOf_loop env ptm tot (tot - i) i frames

@[simp] lemma generateCallsOf_frameLoop (env : TennisEnv) (ptm : ℚ)
    (tot i : ℕ) (frames : List FrameData) :
    generateCallsOf (frameLoop env ptm tot i frames).1 = [] :=
  generateCallsOf_loop env ptm tot (tot - i) i frames

/-- C1: for a loaded video, `totalFrames = ⌊duration * 2⌋` (sampling at 2
frames per second), the loop timestamp is `frameIndex / 2`, and when every
extraction and tracking call succeeds, `trackFrame` is called exactly once
for every `frameIndex` from `1` to `totalFrames − 1`, in index order, each
time with that frame index, that timestamp, and the most recently collected
frame; the collected frames passed on to `generateAnalysisResult` are the
per-frame trajectory starting from the tracker's initial frame. -/
theorem claim1_frame_loop_trajectory (url : String) (meta : VideoMetadata)
    (boxes : List BoundingBox) (env : TennisEnv) (init : TrackerInit)
    (b64f : ℕ → String) (trkf : String → ℕ → ℚ → FrameData → FrameData)
    (hinit : env.trackerInit = Except.ok init)
    (hload : env.videoLoads = true)
    (hex : ∀ i, env.extract i = some (b64f i))
    (htr : ∀ b i t f,
      env.track b i t f init.pixelsToMeters = some (trkf b i t f)) :
    totalFramesOf env.duration = (env.duration * 2).floor.toNat ∧
    (∀ j, timestampAt j = (j : ℚ) / 2) ∧
    trackCallsOf (startTennisAnalysis (some url) (some meta) boxes env) =
      (List.range' 1 (totalFramesOf env.duration - 1)).map (fun j =>
        (b64f j, j, timestampAt j,
         trajectory trkf b64f init.initialFrame (j - 1),
         init.pixelsToMeters)) ∧
    generateCallsOf (startTennisAnalysis (some url) (some meta) boxes env) =
      [((List.range (max 1 (totalFramesOf env.duration))).map
          (trajectory trkf b64f init.initialFrame),
        ⟨env.duration, meta.width, meta.height, 30⟩,
        init.pixelsToMeters)] := by
  obtain ⟨hloop2, hloop1⟩ := frameLoopAux_success env init.pixelsToMeters
    (totalFramesOf env.duration) b64f trkf init.initialFrame hex htr
    (totalFramesOf env.duration - 1) 1 (by omega) (by omega)
  have hstart : [init.initialFrame] =
      (List.range 1).map (trajectory trkf b64f init.initialFrame) := rfl
  have hL1 : trackCallsOf (frameLoop env init.pixelsToMeters
      (totalFramesOf env.duration) 1 [init.initialFrame]).1 =
      (List.range' 1 (totalFramesOf env.duration - 1)).map (fun j =>
        (b64f j, j, timestampAt j,
         trajectory trkf b64f init.initialFrame (j - 1),
         init.pixelsToMeters)) := by
    show trackCallsOf (frameLoopAux env init.pixelsToMeters
      (totalFramesOf env.duration) (totalFramesOf env.duration - 1) 1
      [init.initialFrame]).1 = _
    rw [hstart]
    exact hloop1
  have hL2 : (frameLoop env init.pixelsToMeters
      (totalFramesOf env.duration) 1 [init.initialFrame]).2 =
      (List.range (max 1 (totalFramesOf env.duration))).map
        (trajectory trkf b64f init.initialFrame) := by
    show (frameLoopAux env init.pixelsToMeters
      (totalFramesOf env.duration) (totalFramesOf env.duration - 1) 1
      [init.initialFrame]).2 = _
    rw [hstart]
    exact hloop2
  rcases hg : env.generate (frameLoop env init.pixelsToMeters
      (totalFramesOf env.duration) 1 [init.initialFrame]).2
      ⟨env.duration, meta.width, meta.height, 30⟩ init.pixelsToMeters
    with e | r
  · rw [run_gen_error url meta boxes env init e hinit hload hg]
    refine ⟨rfl, fun _ => rfl, ?_, ?_⟩
    · simp only [trackCallsOf_append, trackCallsOf_cons, trackCallsOf_nil]
      simp [hL1]
    · simp only [generateCallsOf_append, generateCallsOf_cons,
        generateCallsOf_nil, generateCallsOf_frameLoop]
      simp [hL2]
  · rw [run_gen_ok url meta boxes env init r hinit hload hg]
    refine ⟨rfl, fun _ => rfl, ?_, ?_⟩
    · simp only [trackCallsOf_append, trackCallsOf_cons, trackCallsOf_nil]
      simp [hL1]
    · simp only [generateCallsOf_append, generateCallsOf_cons,
        generateCallsOf_nil, generateCallsOf_frameLoop]
      simp [hL2]

/-- Witness for C1 at a concrete run: the 5-frame demo analysis. -/
theorem claim1_witness :
    totalFramesOf demoEnv.duration = (demoEnv.duration * 2).floor.toNat ∧
    timestampAt 1 = (1 : ℚ) / 2 ∧
    trackCallsOf
        (startTennisAnalysis (some "video.mp4") (some demoMeta) [] demoEnv) =
      (List.range' 1 (totalFramesOf demoEnv.duration - 1)).map (fun j =>
        ("frame", j, timestampAt j,
         trajectory (fun _ _ _ f => ⟨f.tag + 1⟩) (fun _ => "frame")
           demoInit.initialFrame (j - 1), demoInit.pixelsToMeters)) ∧
    generateCallsOf
        (startTennisAnalysis (some "video.mp4") (some demoMeta) [] demoEnv) =
      [((List.range (max 1 (totalFramesOf demoEnv.duration))).map
          (trajectory (fun _ _ _ f => ⟨f.tag + 1⟩) (fun _ => "frame")
            demoInit.initialFrame),
        ⟨demoEnv.duration, demoMeta.width, demoMeta.height, 30⟩,
        demoInit.pixelsToMeters)] :=
  ⟨(claim1_frame_loop_trajectory "video.mp4" demoMeta [] demoEnv demoInit
      (fun _ => "frame") (fun _ _ _ f => ⟨f.tag + 1⟩) rfl rfl (fun _ => rfl)
      (fun _ _ _ _ => rfl)).1,
   (claim1_frame_loop_trajectory "video.mp4" demoMeta [] demoEnv demoInit
      (fun _ => "frame") (fun _ _ _ f => ⟨f.tag + 1⟩) rfl rfl (fun _ => rfl)
      (fun _ _ _ _ => rfl)).2.1 1,
   (claim1_frame_loop_trajectory "video.mp4" demoMeta [] demoEnv demoInit
      (fun _ => "frame") (fun _ _ _ f => ⟨f.tag + 1⟩) rfl rfl (fun _ => rfl)
      (fun _ _ _ _ => rfl)).2.2.1,
   (claim1_frame_loop_trajectory "video.mp4" demoMeta [] demoEnv demoInit
      (fun _ => "frame") (fun _ _ _ f => ⟨f.tag + 1⟩) rfl rfl (fun _ => rfl)
      (fun _ _ _ _ => rfl)).2.2.2⟩

/-- C3: on successful completion, the serialised result of
`generateAnalysisResult` is stored under the localStorage key
`analysis-${newAnalysisId}` with `newAnalysisId = tennis-<fresh uuid>`, and
navigation to `/tennis/results/${newAnalysisId}?videoUrl=<encoded url>`
happens only after that write: the write and the navigation are the final
two events, in that order, and they are the only write and navigation of
the run. -/
theorem claim3_storage_before_navigation (url : String)
    (meta : VideoMetadata) (boxes : List BoundingBox) (env : TennisEnv)
    (init : TrackerInit) (r : TennisAnalysisResult)
    (hinit : env.trackerInit = Except.ok init)
    (hload : env.videoLoads = true)
    (hgen : env.generate
        (frameLoop env init.pixelsToMeters (totalFramesOf env.duration) 1
          [init.initialFrame]).2
        ⟨env.duration, meta.width, meta.height, 30⟩ init.pixelsToMeters =
      Except.ok r) :
    storageWritesOf (startTennisAnalysis (some url) (some meta) boxes env) =
      [("analysis-" ++ ("tennis-" ++ env.freshUuid), env.stringify r)] ∧
    navigatesOf (startTennisAnalysis (some url) (some meta) boxes env) =
      ["/tennis/results/" ++ ("tennis-" ++ env.freshUuid) ++ "?videoUrl=" ++
        env.encode url] ∧
    [Event.storageWrite ("analysis-" ++ ("tennis-" ++ env.freshUuid))
       (env.stringify r),
     Event.navigate ("/tennis/results/" ++ ("tennis-" ++ env.freshUuid) ++
       "?videoUrl=" ++ env.encode url)] <:+
      startTennisAnalysis (some url) (some meta) boxes env := by
  rw [run_gen_ok url meta boxes env init r hinit hload hgen]
  refine ⟨?_, ?_, ?_⟩
  · simp
  · simp
  · exact ⟨[Event.setIsAnalyzing true, Event.setError none,
      Event.setProgress 0,
      Event.setMessage "Initializing tennis analysis...",
      Event.setAnalysisId ("tennis-" ++ env.freshUuid),
      Event.initCall boxes meta.width meta.height] ++
      (frameLoop env init.pixelsToMeters (totalFramesOf env.duration) 1
        [init.initialFrame]).1 ++
      [Event.generateCall (frameLoop env init.pixelsToMeters
          (totalFramesOf env.duration) 1 [init.initialFrame]).2
        ⟨env.duration, meta.width, meta.height, 30⟩ init.pixelsToMeters],
      by simp⟩

/-- Witness for C3 at a concrete run: the successful 5-frame demo
analysis. -/
theorem claim3_witness :
    storageWritesOf
        (startTennisAnalysis (some "video.mp4") (some demoMeta) [] demoEnv) =
      [("analysis-" ++ ("tennis-" ++ demoEnv.freshUuid),
        demoEnv.stringify ⟨5⟩)] ∧
    navigatesOf
        (startTennisAnalysis (some "video.mp4") (some demoMeta) [] demoEnv) =
      ["/tennis/results/" ++ ("tennis-" ++ demoEnv.freshUuid) ++
        "?videoUrl=" ++ demoEnv.encode "video.mp4"] ∧
    [Event.storageWrite ("analysis-" ++ ("tennis-" ++ demoEnv.freshUuid))
       (demoEnv.stringify ⟨5⟩),
     Event.navigate ("/tennis/results/" ++ ("tennis-" ++ demoEnv.freshUuid) ++
       "?videoUrl=" ++ demoEnv.encode "video.mp4")] <:+
      startTennisAnalysis (some "video.mp4") (some demoMeta) [] demoEnv :=
  claim3_storage_before_navigation "video.mp4" demoMeta [] demoEnv demoInit
    ⟨5⟩ rfl rfl rfl

/-- C8: every call of `generateAnalysisResult` receives a metadata record
whose `fps` field is the constant `30`, for every environment (hence
regardless of the source video's actual frame rate), even though the
harness samples frames at `frameRate = 2` frames per second. -/
theorem claim8_fps_constant (videoUrl : Option String)
    (videoMetadata : Option VideoMetadata) (boxes : List BoundingBox)
    (env : TennisEnv) (fl : List FrameData) (gm : AnalysisVideoMeta)
    (p : ℚ)
    (h : Event.generateCall fl gm p ∈
      startTennisAnalysis videoUrl videoMetadata boxes env) :
    gm.fps = 30 ∧ frameRate = 2 ∧ gm.fps ≠ frameRate := by
  have hfps : gm.fps = 30 := by
    rcases videoUrl with _ | url
    · simp [startTennisAnalysis] at h
    rcases videoMetadata with _ | meta
    · simp [startTennisAnalysis] at h
    rcases hI : env.trackerInit with e | init
    · rw [run_init_error url meta boxes env e hI] at h
      simp at h
    rcases hL : env.videoLoads with _ | _
    · rw [run_load_error url meta boxes env init hI hL] at h
      simp at h
    rcases hg : env.generate (frameLoop env init.pixelsToMeters
        (totalFramesOf env.duration) 1 [init.initialFrame]).2
        ⟨env.duration, meta.width, meta.height, 30⟩ init.pixelsToMeters
      with e | r
    · rw [run_gen_error url meta boxes env init e hI hL hg] at h
      simp only [List.mem_append] at h
      rcases h with (h | h) | h
      · simp at h
      · exact absurd h (generateCall_not_mem_frameLoop env
          init.pixelsToMeters (totalFramesOf env.duration) 1
          [init.initialFrame] fl gm p)
      · simp at h
        obtain ⟨-, rfl, -⟩ := h
        rfl
    · rw [run_gen_ok url meta boxes env init r hI hL hg] at h
      simp only [List.mem_append] at h
      rcases h with (h | h) | h
      · simp at h
      · exact absurd h (generateCall_not_mem_frameLoop env
          init.pixelsToMeters (totalFramesOf env.duration) 1
          [init.initialFrame] fl gm p)
      · simp at h
        obtain ⟨-, rfl, -⟩ := h
        rfl
  exact ⟨hfps, rfl, by rw [hfps]; decide⟩

/-- Witness for C8 at a concrete run: the `generateAnalysisResult` call of
the 5-frame demo analysis. -/
theorem claim8_witness :
    (⟨5 / 2, 640, 360, 30⟩ : AnalysisVideoMeta).fps = 30 ∧
    frameRate = 2 ∧
    (⟨5 / 2, 640, 360, 30⟩ : AnalysisVideoMeta).fps ≠ frameRate :=
  claim8_fps_constant (some "video.mp4") (some demoMeta) [] demoEnv
    [⟨0⟩, ⟨1⟩, ⟨2⟩, ⟨3⟩, ⟨4⟩] ⟨5 / 2, 640, 360, 30⟩ 1 (by decide)

/-- C9: when an exception escapes the outer `try` block of
`startTennisAnalysis` (tracker initialisation, video load, or result
generation failing), no localStorage entry is written, no navigation to the
results page occurs, and the run ends by setting the error state to the
exception's message and resetting `isAnalyzing` to `false`. -/
theorem claim9_failed_run_writes_nothing (url : String)
    (meta : VideoMetadata) (boxes : List BoundingBox) (env : TennisEnv)
    (e : String) (hfail : outerFailure env meta = some e) :
    (∀ k v, Event.storageWrite k v ∉
      startTennisAnalysis (some url) (some meta) boxes env) ∧
    (∀ u, Event.navigate u ∉
      startTennisAnalysis (some url) (some meta) boxes env) ∧
    [Event.setError (some (messageOr e "Error analyzing video")),
     Event.setIsAnalyzing false] <:+
      startTennisAnalysis (some url) (some meta) boxes env := by
  rcases hI : env.trackerInit with e0 | init
  · simp only [outerFailure, hI] at hfail
    obtain rfl : e0 = e := by injection hfail
    rw [run_init_error url meta boxes env e0 hI]
    refine ⟨fun k v hkv => by simp at hkv, fun u hu => by simp at hu, ?_⟩
    exact ⟨[Event.setIsAnalyzing true, Event.setError none,
      Event.setProgress 0,
      Event.setMessage "Initializing tennis analysis...",
      Event.setAnalysisId ("tennis-" ++ env.freshUuid),
      Event.initCall boxes meta.width meta.height,
      Event.consoleError e0], by simp⟩
  · simp only [outerFailure, hI] at hfail
    rcases hL : env.videoLoads with _ | _
    · rw [hL] at hfail
      simp only [Bool.false_eq_true, if_false] at hfail
      obtain rfl : "Failed to load video" = e := by injection hfail
      rw [run_load_error url meta boxes env init hI hL]
      refine ⟨fun k v hkv => by simp at hkv, fun u hu => by simp at hu, ?_⟩
      exact ⟨[Event.setIsAnalyzing true, Event.setError none,
        Event.setProgress 0,
        Event.setMessage "Initializing tennis analysis...",
        Event.setAnalysisId ("tennis-" ++ env.freshUuid),
        Event.initCall boxes meta.width meta.height,
        Event.consoleError "Failed to load video"], by simp⟩
    · rw [hL] at hfail
      simp only [if_true] at hfail
      rcases hg : env.generate (frameLoop env init.pixelsToMeters
          (totalFramesOf env.duration) 1 [init.initialFrame]).2
          ⟨env.duration, meta.width, meta.height, 30⟩ init.pixelsToMeters
        with e1 | r
      · rw [hg] at hfail
        obtain rfl : e1 = e := by injection hfail
        rw [run_gen_error url meta boxes env init e1 hI hL hg]
        refine ⟨fun k v hkv => ?_, fun u hu => ?_, ?_⟩
        · simp only [List.mem_append] at hkv
          rcases hkv with (hkv | hkv) | hkv
          · simp at hkv
          · exact storageWrite_not_mem_frameLoop env init.pixelsToMeters
              (totalFramesOf env.duration) 1 [init.initialFrame] k v hkv
          · simp at hkv
        · simp only [List.mem_append] at hu
          rcases hu with (hu | hu) | hu
          · simp at hu
          · exact navigate_not_mem_frameLoop env init.pixelsToMeters
              (totalFramesOf env.duration) 1 [init.initialFrame] u hu
          · simp at hu
        · exact ⟨([Event.setIsAnalyzing true, Event.setError none,
            Event.setProgress 0,
            Event.setMessage "Initializing tennis analysis...",
            Event.setAnalysisId ("tennis-" ++ env.freshUuid),
            Event.initCall boxes meta.width meta.height] ++
            (frameLoop env init.pixelsToMeters (totalFramesOf env.duration)
              1 [init.initialFrame]).1 ++
            [Event.generateCall (frameLoop env init.pixelsToMeters
                (totalFramesOf env.duration) 1 [init.initialFrame]).2
              ⟨env.duration, meta.width, meta.height, 30⟩
              init.pixelsToMeters,
             Event.consoleError e1]), by simp⟩
      · rw [hg] at hfail
        cases hfail

/-- Witness for C9 at a concrete input: the run whose tracker
initialisation throws. -/
theorem claim9_witness :
    Event.storageWrite ("analysis-" ++ ("tennis-" ++ "uuid-1")) "stored-0" ∉
      startTennisAnalysis (some "video.mp4") (some demoMeta) [] failEnv ∧
    Event.navigate ("/tennis/results/" ++ ("tennis-" ++ "uuid-1") ++
        "?videoUrl=" ++ "video.mp4") ∉
      startTennisAnalysis (some "video.mp4") (some demoMeta) [] failEnv ∧
    [Event.setError (some (messageOr "init failed" "Error analyzing video")),
     Event.setIsAnalyzing false] <:+
      startTennisAnalysis (some "video.mp4") (some demoMeta) [] failEnv :=
  ⟨(claim9_failed_run_writes_nothing "video.mp4" demoMeta [] failEnv
      "init failed" rfl).1 _ _,
   (claim9_failed_run_writes_nothing "video.mp4" demoMeta [] failEnv
      "init failed" rfl).2.1 _,
   (claim9_failed_run_writes_nothing "video.mp4" demoMeta [] failEnv
      "init failed" rfl).2.2⟩

lemma fetchAnalysis_local_some (id : String) (q : Option String)
    (env : FetchEnv) (s : String)
    (hS : env.localStore ("analysis-" ++ id) = some s) :
    fetchAnalysis id q env =
      (match env.parse s with
       | Except.error e =>
           [FetchEvent.localGet ("analysis-" ++ id),
            FetchEvent.consoleError e,
            FetchEvent.setError (messageOr e "Error fetching analysis"),
            FetchEvent.setLoading false]
       | Except.ok parsed =>
           [FetchEvent.localGet ("analysis-" ++ id),
            FetchEvent.setAnalysis (some ⟨id, "client-user", q.getD "",
              "tennis", "completed", some parsed, env.now⟩),
            FetchEvent.setTennisAnalysis parsed,
            FetchEvent.setLoading false]) := by
  simp only [fetchAnalysis, hS]

lemma fetchAnalysis_local_none (id : String) (q : Option String)
    (env : FetchEnv) (hS : env.localStore ("analysis-" ++ id) = none) :
    ∃ rest, fetchAnalysis id q env =
      FetchEvent.localGet ("analysis-" ++ id) ::
      FetchEvent.apiFetch ("/api/analysis/" ++ id) :: rest := by
  simp only [fetchAnalysis, hS]
  rcases env.api ("/api/analysis/" ++ id) with e | data
  · exact ⟨_, rfl⟩
  · rcases data with ⟨ok, err, an⟩
    rcases ok with _ | _
    · exact ⟨_, rfl⟩
    · rcases q with _ | u <;> rcases an with _ | a
      · exact ⟨_, rfl⟩
      · rcases a with ⟨aid, auser, aurl, asport, astat, ares, acreated⟩
        rcases ares with _ | r
        · exact ⟨_, rfl⟩
        · rcases r with ⟨hf1, hp1, pl⟩
          rcases hf1 with _ | _ <;> rcases hp1 with _ | _ <;> exact ⟨_, rfl⟩
      · exact ⟨_, rfl⟩
      · rcases a with ⟨aid, auser, aurl, asport, astat, ares, acreated⟩
        rcases ares with _ | r
        · exact ⟨_, rfl⟩
        · rcases r with ⟨hf1, hp1, pl⟩
          rcases hf1 with _ | _ <;> rcases hp1 with _ | _ <;> exact ⟨_, rfl⟩

/-- C5: the results page retrieves a stored analysis with localStorage
taking precedence over the API: `fetchAnalysis` reads the localStorage key
`analysis-${id}` first; when that key exists the API is never contacted and
the parsed entry becomes the displayed tennis analysis; only when the key
is absent does it fetch `/api/analysis/${id}`. -/
theorem claim5_local_precedence (id : String) (q : Option String)
    (env : FetchEnv) :
    (fetchAnalysis id q env).head? =
      some (FetchEvent.localGet ("analysis-" ++ id)) ∧
    (∀ s, env.localStore ("analysis-" ++ id) = some s →
      (∀ u, FetchEvent.apiFetch u ∉ fetchAnalysis id q env) ∧
      (∀ p, env.parse s = Except.ok p →
        FetchEvent.setTennisAnalysis p ∈ fetchAnalysis id q env)) ∧
    (env.localStore ("analysis-" ++ id) = none →
      FetchEvent.apiFetch ("/api/analysis/" ++ id) ∈ fetchAnalysis id q env) := by
  refine ⟨?_, ?_, ?_⟩
  · rcases hS : env.localStore ("analysis-" ++ id) with _ | s
    · obtain ⟨rest, hr⟩ := fetchAnalysis_local_none id q env hS
      rw [hr]
      rfl
    · rw [fetchAnalysis_local_some id q env s hS]
      rcases env.parse s with e | p <;> rfl
  · intro s hS
    rw [fetchAnalysis_local_some id q env s hS]
    constructor
    · intro u hu
      rcases hP : env.parse s with e | p <;> rw [hP] at hu <;> simp at hu
    · intro p hP
      rw [hP]
      simp
  · intro hS
    obtain ⟨rest, hr⟩ := fetchAnalysis_local_none id q env hS
    rw [hr]
    simp

/-- Witness for C5 at concrete inputs: a stored analysis for id `abc`
(no API contact, parsed entry displayed) and an empty localStorage for id
`xyz` (API contacted). -/
theorem claim5_witness :
    FetchEvent.apiFetch ("/api/analysis/" ++ "abc") ∉
      fetchAnalysis "abc" none localFetchEnv ∧
    FetchEvent.setTennisAnalysis demoParsed ∈
      fetchAnalysis "abc" none localFetchEnv ∧
    FetchEvent.apiFetch ("/api/analysis/" ++ "xyz") ∈
      fetchAnalysis "xyz" none remoteFetchEnv :=
  ⟨((claim5_local_precedence "abc" none localFetchEnv).2.1 "stored"
      (by decide)).1 _,
   ((claim5_local_precedence "abc" none localFetchEnv).2.1 "stored"
      (by decide)).2 demoParsed rfl,
   (claim5_local_precedence "xyz" none remoteFetchEnv).2.2 rfl⟩

end AEyeSports
